import Mathlib

/-!
Shallow embedding of the multi-model chat server
(stream-multi-model-switch): provider platforms, the two streaming
response handlers (Anthropic and Llama), the multi-model router, the
Llama agent's context extraction, the router initialization, and the
HTTP control-plane registry-key derivation.  Each definition is
translated from the corresponding TypeScript source; effects on the
chat backend (partial message updates, custom events, sent messages)
are reified as a list of `ChatAction`s.
-/

/-- The three provider platforms (`AgentPlatform` in `agents/types.ts`). -/
inductive AgentPlatform where
  | anthropic
  | openai
  | llama
  deriving DecidableEq, Repr, Fintype

/-- The string value of each enum member in `agents/types.ts`. -/
def AgentPlatform.name : AgentPlatform → String
  | .anthropic => "anthropic"
  | .openai => "openai"
  | .llama => "llama"

/-- The mutable fields of the chat message being generated: its text and
its `generating` flag (custom field set by `partialUpdateMessage`). -/
structure MessageState where
  text : String
  generating : Bool
  deriving DecidableEq, Repr

/-- Effects sent to the chat backend, reified.  `partialUpdate` carries the
fields passed in the `set` object: `text?` is `none` when the update sets
only `generating` (as the stop handlers do). -/
inductive ChatAction where
  | partialUpdate (text? : Option String) (generating : Bool)
  | indicatorUpdate (aiState : String)
  | indicatorClear
  | switchErrorEvent (error : String)
  | switchedEvent (platform : AgentPlatform)
  | sendMessage (text : String) (aiGenerated : Bool)
  | delayMs (n : Nat)
  | abortStream
  | delegateTurn (platform : AgentPlatform)
  deriving DecidableEq, Repr

/-- Apply a `partialUpdateMessage` `set` payload to the message: a field is
overwritten exactly when it is present in the payload. -/
def MessageState.applyUpdate (m : MessageState) (text? : Option String)
    (generating : Bool) : MessageState :=
  { text := text?.getD m.text, generating := generating }

/-! ## Anthropic response handler (`AnthropicResponseHandler`, part_002) -/

/-- The Anthropic stream events distinguished by the `switch` in
`AnthropicResponseHandler.handle`; `contentBlockDelta` carries
`delta.type` and `delta.text`; any other event type hits no case. -/
inductive AnthropicStreamEvent where
  | contentBlockStart
  | contentBlockDelta (deltaType : String) (text : String)
  | messageDelta
  | messageStop
  | other
  deriving DecidableEq, Repr

/-- Per-generation state of `AnthropicResponseHandler`: the accumulated
`message_text`, the `chunk_counter`, and the chat message being updated. -/
structure AnthropicRelayState where
  message_text : String
  chunk_counter : Nat
  msg : MessageState
  deriving DecidableEq, Repr

/-- The throttling test in the `content_block_delta` case (evaluated after
the counter is incremented): `chunk_counter % 20 === 0 ||
(chunk_counter < 8 && chunk_counter % 2 !== 0)`. -/
def anthropicCommitDue (c : Nat) : Bool :=
  c % 20 == 0 || (c < 8 && c % 2 != 0)

/-- `AnthropicResponseHandler.handle`, one stream event.  The
`message_delta` case has no `break`, so after its own final commit it
falls through into the `message_stop` case (delay, a second identical
commit, indicator clear). -/
def anthropicHandle (s : AnthropicRelayState) (e : AnthropicStreamEvent) :
    AnthropicRelayState × List ChatAction :=
  match e with
  | .contentBlockStart =>
      (s, [.indicatorUpdate "AI_STATE_GENERATING"])
  | .contentBlockDelta deltaType text =>
      if deltaType != "text_delta" then (s, [])
      else
        let acc := s.message_text ++ text
        let c := s.chunk_counter + 1
        if anthropicCommitDue c then
          ({ message_text := acc, chunk_counter := c,
             msg := s.msg.applyUpdate (some acc) true },
           [.partialUpdate (some acc) true])
        else
          ({ s with message_text := acc, chunk_counter := c }, [])
  | .messageDelta =>
      -- fallthrough: the commit of this case, then the whole
      -- `message_stop` body
      ({ s with msg := s.msg.applyUpdate (some s.message_text) false },
       [.partialUpdate (some s.message_text) false,
        .delayMs 500,
        .partialUpdate (some s.message_text) false,
        .indicatorClear])
  | .messageStop =>
      ({ s with msg := s.msg.applyUpdate (some s.message_text) false },
       [.delayMs 500,
        .partialUpdate (some s.message_text) false,
        .indicatorClear])
  | .other => (s, [])

/-- Fold `anthropicHandle` over the events delivered before the stream
ends or throws, collecting the emitted actions. -/
def anthropicProcess (s : AnthropicRelayState)
    (events : List AnthropicStreamEvent) :
    AnthropicRelayState × List ChatAction :=
  match events with
  | [] => (s, [])
  | e :: rest =>
      let (s', as) := anthropicHandle s e
      let (s'', as') := anthropicProcess s' rest
      (s'', as ++ as')

/-- How the `for await` loop in `AnthropicResponseHandler.run` ends:
normal exhaustion, or a thrown error that is / is not
`overloaded_error`. -/
inductive AnthropicTerminal where
  | exhausted
  | overloaded
  | genericError
  deriving DecidableEq, Repr

/-- The error string sent with the overload fallback event in
`AnthropicResponseHandler.run`. -/
def overloadedErrorText : String :=
  "Model is currently overloaded, falling back to another model"

/-- The `catch` of `AnthropicResponseHandler.run`: on `overloaded_error`
send only the `custom_model_switch_error` event; on any other error send
only the `AI_STATE_ERROR` indicator event.  Neither branch updates the
message.  Normal exhaustion does nothing further. -/
def anthropicFinish (s : AnthropicRelayState) (t : AnthropicTerminal) :
    AnthropicRelayState × List ChatAction :=
  match t with
  | .exhausted => (s, [])
  | .overloaded => (s, [.switchErrorEvent overloadedErrorText])
  | .genericError => (s, [.indicatorUpdate "AI_STATE_ERROR"])

/-- The placeholder message as created by the agent (`text: ''`,
`generating` unset, i.e. cleared). -/
def initialMessage : MessageState := { text := "", generating := false }

/-- Initial per-generation handler state. -/
def anthropicInit : AnthropicRelayState :=
  { message_text := "", chunk_counter := 0, msg := initialMessage }

/-- `AnthropicResponseHandler.run`: process the delivered events, then the
terminal condition. -/
def anthropicRun (events : List AnthropicStreamEvent)
    (t : AnthropicTerminal) : AnthropicRelayState × List ChatAction :=
  let (s, as) := anthropicProcess anthropicInit events
  let (s', as') := anthropicFinish s t
  (s', as ++ as')

/-- `AnthropicResponseHandler.handleStopGenerating`: abort the stream's
controller, set only `generating: false` on the message, clear the
indicator. -/
def anthropicHandleStop (s : AnthropicRelayState) :
    AnthropicRelayState × List ChatAction :=
  ({ s with msg := s.msg.applyUpdate none false },
   [.abortStream, .partialUpdate none false, .indicatorClear])

/-! ## Llama response handler (`LlamaResponseHandler.ts`) -/

/-- Per-generation state of `LlamaResponseHandler`. -/
structure LlamaRelayState where
  message_text : String
  chunk_counter : Nat
  msg : MessageState
  deriving DecidableEq, Repr

/-- The throttling test in the chunk loop (after increment):
`chunk_counter % 15 === 0 || (chunk_counter < 8 && chunk_counter % 3 === 0)`. -/
def llamaCommitDue (c : Nat) : Bool :=
  c % 15 == 0 || (c < 8 && c % 3 == 0)

/-- One iteration of the `for await` loop of `LlamaResponseHandler.run`,
on the text extracted from a chunk by `parseChunk` (fragments are
modelled post-parse; `parseChunk` returns `''` on unusable chunks, which
the `if (chunkText)` guard skips). -/
def llamaOnChunk (s : LlamaRelayState) (chunkText : String) :
    LlamaRelayState × List ChatAction :=
  if chunkText = "" then (s, [])
  else
    let acc := s.message_text ++ chunkText
    let c := s.chunk_counter + 1
    if llamaCommitDue c then
      ({ message_text := acc, chunk_counter := c,
         msg := s.msg.applyUpdate (some acc) true },
       [.partialUpdate (some acc) true])
    else
      ({ s with message_text := acc, chunk_counter := c }, [])

/-- Fold `llamaOnChunk` over the chunk texts delivered before the stream
ends or throws. -/
def llamaProcess (s : LlamaRelayState) (chunks : List String) :
    LlamaRelayState × List ChatAction :=
  match chunks with
  | [] => (s, [])
  | c :: rest =>
      let (s', as) := llamaOnChunk s c
      let (s'', as') := llamaProcess s' rest
      (s'', as ++ as')

/-- How the Llama chunk loop ends. -/
inductive LlamaTerminal where
  | exhausted
  | errored
  deriving DecidableEq, Repr

/-- The interruption notice appended on error when partial text exists. -/
def llamaInterruptionNotice : String :=
  "\n\n[Message generation was interrupted]"

/-- The apology committed on error when no text was accumulated. -/
def llamaErrorApology : String :=
  "I'm sorry, but there was an error generating a response."

/-- End of `LlamaResponseHandler.run`: on normal exhaustion, final commit
of the full text with `generating: false` then indicator clear; on error,
the `AI_STATE_ERROR` indicator event, then either accumulated text plus
the interruption notice, or the apology, committed with
`generating: false`. -/
def llamaFinish (s : LlamaRelayState) (t : LlamaTerminal) :
    LlamaRelayState × List ChatAction :=
  match t with
  | .exhausted =>
      ({ s with msg := s.msg.applyUpdate (some s.message_text) false },
       [.partialUpdate (some s.message_text) false, .indicatorClear])
  | .errored =>
      if s.message_text != "" then
        let finalText := s.message_text ++ llamaInterruptionNotice
        ({ s with msg := s.msg.applyUpdate (some finalText) false },
         [.indicatorUpdate "AI_STATE_ERROR",
          .partialUpdate (some finalText) false])
      else
        ({ s with msg := s.msg.applyUpdate (some llamaErrorApology) false },
         [.indicatorUpdate "AI_STATE_ERROR",
          .partialUpdate (some llamaErrorApology) false])

/-- Initial Llama handler state. -/
def llamaInit : LlamaRelayState :=
  { message_text := "", chunk_counter := 0, msg := initialMessage }

/-- `LlamaResponseHandler.run`. -/
def llamaRun (chunks : List String) (t : LlamaTerminal) :
    LlamaRelayState × List ChatAction :=
  let (s, as) := llamaProcess llamaInit chunks
  let (s', as') := llamaFinish s t
  (s', as ++ as')

/-- `LlamaResponseHandler.handleStopGenerating`: abort the handler's
controller, set only `generating: false` on the message, clear the
indicator. -/
def llamaHandleStop (s : LlamaRelayState) :
    LlamaRelayState × List ChatAction :=
  ({ s with msg := s.msg.applyUpdate none false },
   [.abortStream, .partialUpdate none false, .indicatorClear])

/-! ## Multi-model router (`MultiModelAgent`, part_000) -/

/-- Router state: the keys of the `agents` map in insertion order (a JS
`Map` iterates in insertion order, and its values are always live agent
objects), the `activeAgent` selector, and `lastInteractionTs`. -/
structure RouterState where
  agents : List AgentPlatform
  activeAgent : AgentPlatform
  lastInteractionTs : Nat
  deriving DecidableEq, Repr

/-- An inbound `message.new` event's message, with the fields the server
reads: `text` (possibly absent), the `ai_generated` flag, and
`parent_id` (present exactly when the message is a threaded reply). -/
structure InboundMessage where
  text : Option String
  ai_generated : Bool
  parent_id : Option String
  deriving DecidableEq, Repr

/-- A `message.new` event (its `message` field may be absent). -/
structure MessageEvent where
  message : Option InboundMessage
  deriving DecidableEq, Repr

/-- `MultiModelAgent.handleModelSwitch`: missing platform is ignored; a
platform not in the map sends a `custom_model_switch_error` event naming
it and leaves the selector unchanged; otherwise the selector is updated
and a `custom_model_switched` event is sent.  (The inner
`if (!agent)` re-check is unreachable once `agents.has(platform)`
holds, because map values are always live objects.) -/
def handleModelSwitch (st : RouterState) (platform? : Option AgentPlatform) :
    RouterState × List ChatAction :=
  match platform? with
  | none => (st, [])
  | some p =>
      if p ∈ st.agents then
        ({ st with activeAgent := p }, [.switchedEvent p])
      else
        (st,
         [.switchErrorEvent ("AI model " ++ p.name ++ " is not available")])

/-- The apology message sent when no fallback provider exists. -/
def allUnavailableApology : String :=
  "I'm sorry, but all AI models are currently unavailable. Please try again later."

/-- `MultiModelAgent.handleModelSwitchError`: if the event carries no
error it is ignored; otherwise scan `agents.entries()` in iteration
order for the first platform different from the current `activeAgent`,
select it and send `custom_model_switched`; if none exists, send the
apology message. -/
def handleModelSwitchError (st : RouterState) (error? : Option String) :
    RouterState × List ChatAction :=
  match error? with
  | none => (st, [])
  | some _ =>
      match st.agents.find? (fun p => p ≠ st.activeAgent) with
      | some p => ({ st with activeAgent := p }, [.switchedEvent p])
      | none => (st, [.sendMessage allUnavailableApology true])

/-- `MultiModelAgent.processMessageWithAgent`: skip events without a
message, with `ai_generated` messages, or with falsy (`undefined` or
empty) text; otherwise forward the event to the given agent's
`handleMessage`. -/
def processMessageWithAgent (p : AgentPlatform) (e : MessageEvent) :
    List ChatAction :=
  match e.message with
  | none => []
  | some m =>
      if m.ai_generated then []
      else
        match m.text with
        | none => []
        | some t => if t = "" then [] else [.delegateTurn p]

/-- `MultiModelAgent.handleMessage`: refresh the interaction timestamp;
if the active agent is in the map, process with it; otherwise fall back
to the first entry of the map (no `custom_model_switched` event is sent
on this path), or send the apology message if the map is empty. -/
def routerHandleMessage (st : RouterState) (e : MessageEvent) (now : Nat) :
    RouterState × List ChatAction :=
  let st := { st with lastInteractionTs := now }
  if st.activeAgent ∈ st.agents then
    (st, processMessageWithAgent st.activeAgent e)
  else
    match st.agents.head? with
    | some p =>
        ({ st with activeAgent := p }, processMessageWithAgent p e)
    | none => (st, [.sendMessage allUnavailableApology true])

/-! ## Router initialization (`MultiModelAgent.init`, part_000) -/

/-- `Promise.all` over the agents' `init()` results: resolves only if
every member resolves, otherwise rejects with (the first) rejection. -/
def promiseAll : List (Except String Unit) → Except String Unit
  | [] => .ok ()
  | .ok () :: rest => promiseAll rest
  | .error e :: _ => .error e

/-- The platforms `MultiModelAgent.init` unconditionally inserts into the
`agents` map, in insertion order, before any agent's `init()` runs. -/
def multiModelPlatforms : List AgentPlatform :=
  [.anthropic, .openai, .llama]

/-- `MultiModelAgent.init`: every platform is inserted into the map
first, then `Promise.all` awaits all three `init()` calls.  The result is
the map's key list together with the outcome of the awaited
`Promise.all` (an `error` means `init` itself rejects; nothing removes
the failed platform from the map). -/
def multiModelInit (initResult : AgentPlatform → Except String Unit) :
    List AgentPlatform × Except String Unit :=
  (multiModelPlatforms, promiseAll (multiModelPlatforms.map initResult))

/-! ## Llama agent context extraction (`LlamaAgent.handleMessage`, part_003) -/

/-- A message of `channel.state.messages` with the fields the context
builder reads: its text and its author's user id (both possibly absent). -/
structure ChannelMessage where
  text : Option String
  userId : Option String
  deriving DecidableEq, Repr

/-- One role-tagged entry of the provider context. -/
structure ContextEntry where
  role : String
  content : String
  deriving DecidableEq, Repr

/-- `slice(-5)`: the at-most-5 last elements of the list. -/
def lastN (n : Nat) (l : List α) : List α := l.drop (l.length - n)

/-- JavaScript's `String.prototype.trim`: drop whitespace from both
ends (modelled on the character list). -/
def jsTrim (l : List Char) : List Char :=
  ((l.dropWhile Char.isWhitespace).reverse.dropWhile Char.isWhitespace).reverse

/-- The filter applied to the sliced window:
`msg.text && msg.text.trim() !== ''`. -/
def hasNonEmptyText (m : ChannelMessage) : Bool :=
  match m.text with
  | none => false
  | some t => !(t == "") && !(jsTrim t.data).isEmpty

/-- `message.user?.id.startsWith('ai-bot')` (falsy when the author is
absent), modelled as the first six characters equalling `ai-bot`. -/
def isBotAuthor (u : Option String) : Bool :=
  match u with
  | none => false
  | some id => id.data.take 6 == "ai-bot".data

/-- The context window built by `LlamaAgent.handleMessage`:
`channel.state.messages.slice(-5)` first, then the non-empty-text
filter, then the role/content mapping. -/
def llamaContextWindow (channelMessages : List ChannelMessage) :
    List ContextEntry :=
  ((lastN 5 channelMessages).filter hasNonEmptyText).map fun m =>
    { role := if isBotAuthor m.userId then "assistant" else "user",
      content := m.text.getD "" }

/-- Outcome of `LlamaAgent.handleMessage` on one event: either the event
is skipped (no placeholder message created, no provider call), or it is
handled with the given provider context (placeholder created, thinking
indicator sent, stream opened). -/
inductive LlamaTurnResult where
  | skipped
  | handled (context : List ContextEntry)
  deriving DecidableEq, Repr

/-- Pre-turn state of `LlamaAgent`: its resolved endpoint and model name
(set by `init`, which always sets both thanks to the defaults). -/
structure LlamaAgentState where
  apiEndpoint : Option String
  modelName : Option String
  deriving DecidableEq, Repr

/-- `LlamaAgent.handleMessage` up to the point where the stream is
opened: the guard chain (uninitialized agent, absent message,
`ai_generated`, falsy text), the context window, and the explicit
append of the inbound message when it is a threaded reply
(`parent_id !== undefined`), tagged `user`. -/
def llamaAgentHandleMessage (ag : LlamaAgentState) (e : MessageEvent)
    (channelMessages : List ChannelMessage) : LlamaTurnResult :=
  if ag.apiEndpoint.isNone || ag.modelName.isNone then .skipped
  else
    match e.message with
    | none => .skipped
    | some m =>
        if m.ai_generated then .skipped
        else
          match m.text with
          | none => .skipped
          | some t =>
              if t = "" then .skipped
              else
                let ctx := llamaContextWindow channelMessages
                let ctx :=
                  if m.parent_id.isSome then
                    ctx ++ [{ role := "user", content := t }]
                  else ctx
                .handled ctx

/-! ## Control-plane registry keys (`index.ts`, part_004) -/

/-- `channel_id.split(':')` on character lists: a colon starts a new
(empty) leading part; any other character is prepended to the first part
of the split of the rest (which is never empty). -/
def splitOnColon : List Char → List (List Char)
  | [] => [[]]
  | c :: rest =>
      if c = ':' then [] :: splitOnColon rest
      else (c :: (splitOnColon rest).headD []) :: (splitOnColon rest).tail

/-- `.replace(/!/g, '')`. -/
def stripBang (l : List Char) : List Char := l.filter (fun c => c ≠ '!')

/-- The `channel_id_updated` computed by the start handler: if the id
contains `':'`, split on `':'` and, when more than one part results,
keep `parts[1]`. -/
def startChannelIdUpdated (cid : List Char) : List Char :=
  if ':' ∈ cid then
    let parts := splitOnColon cid
    if parts.length > 1 then parts.getD 1 cid else cid
  else cid

/-- The registry key derived by `POST /start-ai-agent`:
`ai-bot-${channel_id_updated.replace(/!/g, '')}`. -/
def startUserId (cid : List Char) : List Char :=
  "ai-bot-".data ++ stripBang (startChannelIdUpdated cid)

/-- The registry key derived by `POST /stop-ai-agent`, `POST
/switch-model` and `GET /active-model/:channel_id`:
`ai-bot-${channel_id.replace(/!/g, '')}` over the whole id. -/
def controlUserId (cid : List Char) : List Char :=
  "ai-bot-".data ++ stripBang cid

/-- A successful start installs exactly one entry, under the start key. -/
def registryAfterStart (cid : List Char) : List (List Char) :=
  [startUserId cid]

/-- `POST /stop-ai-agent`: look up the control key; when found, dispose
and delete it, otherwise leave the registry unchanged. -/
def stopFromRegistry (reg : List (List Char)) (cid : List Char) :
    List (List Char) :=
  if controlUserId cid ∈ reg then reg.erase (controlUserId cid) else reg

/-! ## Start-request registry race (`POST /start-ai-agent`, part_004)

Two concurrent start requests for the same conversation key, modelled as
interleaved atomic steps.  JavaScript's event loop makes every
synchronous run between `await`s atomic, so each request decomposes into
four atomic steps:

* pc 0 — the guard `if (!aiAgentCache.has(user_id) &&
  !pendingAiAgents.has(user_id))` together with `pendingAiAgents.add`
  (no `await` in between); on a false guard control moves straight to
  the `finally`;
* pc 1 — the awaited upsert/addMembers/watch/`createAgent`/`init`
  sequence, which builds this request's fresh agent instance;
* pc 2 — `if (aiAgentCache.has(user_id)) await agent.dispose(); else
  aiAgentCache.set(user_id, agent);` (the check and the `set` are
  synchronous);
* pc 3 — the `finally` clause `pendingAiAgents.delete(user_id)`;
* pc 4 — done.
-/

/-- Per-request state: program counter, whether this request has created
its agent instance, whether it disposed that instance. -/
structure ReqState where
  pc : Fin 5
  created : Bool
  disposed : Bool
  deriving DecidableEq, Repr

/-- Shared registry state for one conversation key plus the two request
threads.  `cache = some r` means request `r`'s instance is installed. -/
structure RegState where
  cache : Option (Fin 2)
  pending : Bool
  req0 : ReqState
  req1 : ReqState
  deriving DecidableEq, Repr

/-- The request `who`'s thread state. -/
def RegState.reqOf (s : RegState) (who : Fin 2) : ReqState :=
  if who = 0 then s.req0 else s.req1

/-- Replace request `who`'s thread state. -/
def RegState.setReq (s : RegState) (who : Fin 2) (r : ReqState) : RegState :=
  if who = 0 then { s with req0 := r } else { s with req1 := r }

/-- One atomic step of request `who`. -/
def regStep (who : Fin 2) (s : RegState) : RegState :=
  let r := s.reqOf who
  if r.pc = 0 then
    if s.cache.isSome || s.pending then
      s.setReq who { r with pc := 3 }
    else
      { s.setReq who { r with pc := 1 } with pending := true }
  else if r.pc = 1 then
    s.setReq who { r with created := true, pc := 2 }
  else if r.pc = 2 then
    if s.cache.isSome then
      s.setReq who { r with disposed := true, pc := 3 }
    else
      { s.setReq who { r with pc := 3 } with cache := some who }
  else if r.pc = 3 then
    { s.setReq who { r with pc := 4 } with pending := false }
  else s

/-- Run a schedule (the interleaving chosen by the event loop). -/
def regRun (sched : List (Fin 2)) (s : RegState) : RegState :=
  sched.foldl (fun s w => regStep w s) s

/-- Initial state: empty registry, empty pending set, both requests at
their guard. -/
def regInit : RegState :=
  { cache := none, pending := false,
    req0 := { pc := 0, created := false, disposed := false },
    req1 := { pc := 0, created := false, disposed := false } }

/-- Boolean implication. -/
def bimp (a b : Bool) : Bool := !a || b

/-- Invariant relating one request's thread state to the shared cache. -/
def reqInv (c : Option (Fin 2)) (who : Fin 2) (q : ReqState) : Bool :=
  bimp (decide (c = some who))
    (q.created && !q.disposed && decide (3 ≤ q.pc.val)) &&
  bimp q.disposed
    (q.created && c.isSome && decide (c ≠ some who) &&
      decide (3 ≤ q.pc.val)) &&
  bimp (decide (q.pc.val ≤ 1)) (!q.created && !q.disposed) &&
  bimp (decide (q.pc.val = 2))
    (q.created && !q.disposed && decide (c ≠ some who)) &&
  bimp (q.created && decide (3 ≤ q.pc.val))
    (decide (c = some who) || q.disposed)

/-- A request is mid-flight between guard and install. -/
def midFlight (q : ReqState) : Bool :=
  decide (q.pc.val = 1) || decide (q.pc.val = 2)

/-- Global invariant of the start-request race. -/
def regInv (s : RegState) : Bool :=
  reqInv s.cache 0 s.req0 && reqInv s.cache 1 s.req1 &&
  bimp s.cache.isNone
    (midFlight s.req0 || midFlight s.req1 ||
      (decide (s.req0.pc.val = 0) && decide (s.req1.pc.val = 0))) &&
  bimp s.pending
    ((midFlight s.req0 || (decide (s.req0.pc.val = 3) && s.req0.created)) ||
     (midFlight s.req1 || (decide (s.req1.pc.val = 3) && s.req1.created)))

/-- The invariant holds initially. -/
theorem regInv_init : regInv regInit = true := by decide

set_option maxRecDepth 4000 in
/-- The invariant is preserved by every atomic step of either request,
checked exhaustively over the (finite) state space. -/
theorem regInv_step (s : RegState) (w : Fin 2) (h : regInv s = true) :
    regInv (regStep w s) = true := by
  obtain ⟨c, p, ⟨pc0, cr0, d0⟩, ⟨pc1, cr1, d1⟩⟩ := s
  revert h
  revert w c p pc0 cr0 d0 pc1 cr1 d1
  decide

/-- The invariant holds after any schedule from the initial state. -/
theorem regInv_run (sched : List (Fin 2)) :
    regInv (regRun sched regInit) = true := by
  suffices h : ∀ s, regInv s = true → regInv (regRun sched s) = true from
    h regInit regInv_init
  induction sched with
  | nil => intro s h; exact h
  | cons w rest ih =>
      intro s h
      exact ih (regStep w s) (regInv_step s w h)

/-! ## Claim theorems -/

/-- C1: an explicit switch request naming a provider absent from the map
emits a switch-error naming it and leaves the selector (whole router
state) unchanged; naming a present provider updates the selector and
emits switch-confirmed. -/
theorem switch_request_behavior (st : RouterState) (p : AgentPlatform) :
    (p ∉ st.agents →
      handleModelSwitch st (some p) =
        (st, [.switchErrorEvent ("AI model " ++ p.name ++ " is not available")])) ∧
    (p ∈ st.agents →
      handleModelSwitch st (some p) =
        ({ st with activeAgent := p }, [.switchedEvent p])) := by
  constructor <;> intro h <;> simp [handleModelSwitch, h]

/-- C1 witness: both branches at concrete router states. -/
theorem switch_request_behavior_witness :
    handleModelSwitch ⟨[.anthropic], .anthropic, 0⟩ (some .llama) =
      (⟨[.anthropic], .anthropic, 0⟩,
       [.switchErrorEvent ("AI model " ++ AgentPlatform.llama.name ++ " is not available")]) ∧
    handleModelSwitch ⟨[.anthropic, .openai], .anthropic, 0⟩ (some .openai) =
      (⟨[.anthropic, .openai], .openai, 0⟩, [.switchedEvent .openai]) :=
  ⟨(switch_request_behavior ⟨[.anthropic], .anthropic, 0⟩ .llama).1 (by decide),
   (switch_request_behavior ⟨[.anthropic, .openai], .anthropic, 0⟩ .openai).2
     (by decide)⟩

/-- C3 counterexample: after one Llama fragment "a" (below the throttling
cadence, so never committed) a stop request leaves the message text at
its last committed value `""`, not at the accumulated partial text `"a"`:
the stop handler sets only `generating: false`. -/
theorem stop_text_not_committed_counterexample :
    (llamaProcess llamaInit ["a"]).1.message_text = "a" ∧
    (llamaHandleStop (llamaProcess llamaInit ["a"]).1).1.msg =
      { text := "", generating := false } ∧
    (llamaHandleStop (llamaProcess llamaInit ["a"]).1).1.msg.text ≠
      (llamaProcess llamaInit ["a"]).1.message_text := by decide

/-- C3 amended: a stop request aborts the controller, updates the message
with only `generating: false` (the text field keeps its last committed
value, which may lag the accumulated buffer), and clears the indicator;
`generating = false` results in every state, in particular after any
number of fragments including zero. -/
theorem stop_generating_cleared (ls : LlamaRelayState)
    (sa : AnthropicRelayState) :
    (llamaHandleStop ls).1.msg.generating = false ∧
    (llamaHandleStop ls).1.msg.text = ls.msg.text ∧
    (llamaHandleStop ls).2 =
      [.abortStream, .partialUpdate none false, .indicatorClear] ∧
    (anthropicHandleStop sa).1.msg.generating = false ∧
    (anthropicHandleStop sa).1.msg.text = sa.msg.text ∧
    (anthropicHandleStop sa).2 =
      [.abortStream, .partialUpdate none false, .indicatorClear] := by
  simp [llamaHandleStop, anthropicHandleStop, MessageState.applyUpdate]

/-- A single dispatched Anthropic stream event never emits the
AI-error-state indicator. -/
theorem anthropicHandle_no_error_indicator (s : AnthropicRelayState)
    (e : AnthropicStreamEvent) :
    ChatAction.indicatorUpdate "AI_STATE_ERROR" ∉ (anthropicHandle s e).2 := by
  cases e with
  | contentBlockStart => simp [anthropicHandle]
  | contentBlockDelta dt t =>
      simp only [anthropicHandle]
      split
      · simp
      · split <;> simp
  | messageDelta => simp [anthropicHandle]
  | messageStop => simp [anthropicHandle]
  | other => simp [anthropicHandle]

/-- No event processed by the Anthropic handler's dispatch emits the
AI-error-state indicator (only the catch of `run` does, for non-overload
errors). -/
theorem anthropic_process_no_error_indicator (s : AnthropicRelayState)
    (events : List AnthropicStreamEvent) :
    ChatAction.indicatorUpdate "AI_STATE_ERROR" ∉
      (anthropicProcess s events).2 := by
  induction events generalizing s with
  | nil => simp [anthropicProcess]
  | cons e rest ih =>
      simp only [anthropicProcess]
      intro hmem
      rcases List.mem_append.mp hmem with hm | hm
      · exact anthropicHandle_no_error_indicator s e hm
      · exact ih (anthropicHandle s e).1 hm

/-- C5: on the provider-overloaded terminal condition the Anthropic
handler leaves the message exactly as the stream events left it, emits
the distinguishable `custom_model_switch_error` overload event, and at
no point of the run emits the AI-error-state indicator. -/
theorem overload_not_an_error (events : List AnthropicStreamEvent) :
    (anthropicRun events .overloaded).1 =
      (anthropicProcess anthropicInit events).1 ∧
    (anthropicRun events .overloaded).2 =
      (anthropicProcess anthropicInit events).2 ++
        [.switchErrorEvent overloadedErrorText] ∧
    ChatAction.switchErrorEvent overloadedErrorText ∈
      (anthropicRun events .overloaded).2 ∧
    ChatAction.indicatorUpdate "AI_STATE_ERROR" ∉
      (anthropicRun events .overloaded).2 := by
  rcases hp : anthropicProcess anthropicInit events with ⟨s, as⟩
  refine ⟨by simp [anthropicRun, hp, anthropicFinish],
          by simp [anthropicRun, hp, anthropicFinish], ?_, ?_⟩
  · simp [anthropicRun, hp, anthropicFinish]
  · simp only [anthropicRun, hp, anthropicFinish]
    intro hmem
    rcases List.mem_append.mp hmem with hm | hm
    · have := anthropic_process_no_error_indicator anthropicInit events
      rw [hp] at this
      exact this hm
    · simp at hm
  
/-- C9: the `message_delta` case of the Anthropic dispatch has no
`break`: its actions are its own final commit followed by the entire
`message_stop` body, it ends in the same handler state as
`message_stop`, and in particular the indicator-clear event is emitted
on every `message_delta`. -/
theorem message_delta_falls_through (s : AnthropicRelayState) :
    (anthropicHandle s .messageDelta).2 =
      ChatAction.partialUpdate (some s.message_text) false ::
        (anthropicHandle s .messageStop).2 ∧
    (anthropicHandle s .messageDelta).1 =
      (anthropicHandle s .messageStop).1 ∧
    ChatAction.indicatorClear ∈ (anthropicHandle s .messageDelta).2 := by
  simp [anthropicHandle]

/-- `processMessageWithAgent` never emits a switch-confirmed event: it
either skips or delegates the turn. -/
theorem processMessageWithAgent_no_switched (p q : AgentPlatform)
    (e : MessageEvent) :
    ChatAction.switchedEvent q ∉ processMessageWithAgent p e := by
  rcases e with ⟨_ | m⟩
  · simp [processMessageWithAgent]
  · simp only [processMessageWithAgent]
    split
    · simp
    · split
      · simp
      · split <;> simp

/-- C2 counterexample: an inbound turn dispatched while the active agent
(anthropic) is absent from the map makes the router select the fallback
(openai) and delegate the turn, but no switch-confirmed
(`custom_model_switched`) event is emitted, contrary to the claim. -/
theorem fallback_no_switched_event_counterexample :
    (routerHandleMessage ⟨[.openai], .anthropic, 0⟩
        ⟨some ⟨some "hi", false, none⟩⟩ 5).1.activeAgent = .openai ∧
    (routerHandleMessage ⟨[.openai], .anthropic, 0⟩
        ⟨some ⟨some "hi", false, none⟩⟩ 5).2 = [.delegateTurn .openai] ∧
    ∀ p : AgentPlatform, ChatAction.switchedEvent p ∉
      (routerHandleMessage ⟨[.openai], .anthropic, 0⟩
        ⟨some ⟨some "hi", false, none⟩⟩ 5).2 := by decide

/-- C2 amended: on an overload/failure signal the router scans the map in
its stable iteration order, selects the first provider different from
the active one, updates the selector and emits switch-confirmed, or
posts the apology if none exists; on an inbound turn with the active
agent absent it selects the first provider of the map (necessarily
different from the active one), updates the selector and delegates the
turn without emitting any switch-confirmed event, or posts the apology
if the map is empty. -/
theorem automatic_fallback_behavior (st : RouterState) (err : String)
    (e : MessageEvent) (now : Nat) :
    (∀ p, st.agents.find? (fun q => q ≠ st.activeAgent) = some p →
      p ∈ st.agents ∧ p ≠ st.activeAgent ∧
      handleModelSwitchError st (some err) =
        ({ st with activeAgent := p }, [.switchedEvent p])) ∧
    (st.agents.find? (fun q => q ≠ st.activeAgent) = none →
      handleModelSwitchError st (some err) =
        (st, [.sendMessage allUnavailableApology true])) ∧
    (st.activeAgent ∉ st.agents → ∀ p rest, st.agents = p :: rest →
      p ≠ st.activeAgent ∧
      routerHandleMessage st e now =
        ({ st with activeAgent := p, lastInteractionTs := now },
         processMessageWithAgent p e) ∧
      ∀ q : AgentPlatform,
        ChatAction.switchedEvent q ∉ processMessageWithAgent p e) ∧
    (st.activeAgent ∉ st.agents → st.agents = [] →
      routerHandleMessage st e now =
        ({ st with lastInteractionTs := now },
         [.sendMessage allUnavailableApology true])) := by
  refine ⟨?_, ?_, ?_, ?_⟩
  · intro p hp
    have hmem : p ∈ st.agents := List.mem_of_find?_eq_some hp
    have hne : p ≠ st.activeAgent := by
      have := List.find?_some hp
      simpa using this
    refine ⟨hmem, hne, ?_⟩
    simp only [handleModelSwitchError]
    rw [hp]
  · intro hp
    simp only [handleModelSwitchError]
    rw [hp]
  · intro habs p rest hagents
    have hpmem : p ∈ st.agents := by
      rw [hagents]; exact List.mem_cons_self p rest
    have hne : p ≠ st.activeAgent := fun he => habs (he ▸ hpmem)
    refine ⟨hne, ?_, fun q => processMessageWithAgent_no_switched p q e⟩
    have habs' : st.activeAgent ∉ p :: rest := hagents ▸ habs
    simp [routerHandleMessage, hagents, habs']
  · intro habs hagents
    simp [routerHandleMessage, habs, hagents]

/-- C2 witness: the amended behavior at concrete router states — overload
fallback from anthropic to openai with a switch-confirmed event, and
inbound-turn fallback to the only mapped provider without one. -/
theorem automatic_fallback_behavior_witness :
    (AgentPlatform.openai ∈ ([.anthropic, .openai, .llama] : List AgentPlatform) ∧
     AgentPlatform.openai ≠ AgentPlatform.anthropic ∧
     handleModelSwitchError ⟨[.anthropic, .openai, .llama], .anthropic, 0⟩
        (some "overloaded") =
       (⟨[.anthropic, .openai, .llama], .openai, 0⟩,
        [.switchedEvent .openai])) ∧
    (AgentPlatform.openai ≠ AgentPlatform.anthropic ∧
     routerHandleMessage ⟨[.openai], .anthropic, 0⟩
        ⟨some ⟨some "hi", false, none⟩⟩ 5 =
       (⟨[.openai], .openai, 5⟩,
        processMessageWithAgent .openai ⟨some ⟨some "hi", false, none⟩⟩) ∧
     ∀ q : AgentPlatform, ChatAction.switchedEvent q ∉
       processMessageWithAgent .openai ⟨some ⟨some "hi", false, none⟩⟩) :=
  ⟨(automatic_fallback_behavior ⟨[.anthropic, .openai, .llama], .anthropic, 0⟩
      "overloaded" ⟨none⟩ 0).1 .openai (by decide),
   (automatic_fallback_behavior ⟨[.openai], .anthropic, 0⟩ ""
      ⟨some ⟨some "hi", false, none⟩⟩ 5).2.2.1 (by decide) .openai []
      (by decide)⟩

/-- C4 counterexample: an Anthropic stream that delivered one text
fragment (committed with `generating: true` by the early cadence) and
then fails with a generic error leaves the message with
`generating = true` and no interruption notice: the generic-error branch
emits only the AI-error-state event and never updates the message. -/
theorem anthropic_generic_error_counterexample :
    (anthropicRun [.contentBlockDelta "text_delta" "Hello"]
        .genericError).1.msg = { text := "Hello", generating := true } ∧
    (anthropicRun [.contentBlockDelta "text_delta" "Hello"]
        .genericError).2 =
      [.partialUpdate (some "Hello") true,
       .indicatorUpdate "AI_STATE_ERROR"] := by decide

/-- C4 amended: the Llama handler behaves as claimed on a generic error
(AI-error-state event, then accumulated text plus the interruption
notice — or the apology when nothing accumulated — committed with
`generating = false`); the Anthropic handler's generic-error branch
emits only the AI-error-state event and leaves the message exactly as
the stream events left it (possibly `generating = true`). -/
theorem generic_error_paths (chunks : List String)
    (events : List AnthropicStreamEvent) :
    (llamaRun chunks .errored).1.msg.generating = false ∧
    ((llamaProcess llamaInit chunks).1.message_text = "" →
      (llamaRun chunks .errored).1.msg.text = llamaErrorApology) ∧
    ((llamaProcess llamaInit chunks).1.message_text ≠ "" →
      (llamaRun chunks .errored).1.msg.text =
        (llamaProcess llamaInit chunks).1.message_text ++
          llamaInterruptionNotice) ∧
    ChatAction.indicatorUpdate "AI_STATE_ERROR" ∈ (llamaRun chunks .errored).2 ∧
    (anthropicRun events .genericError).1 =
      (anthropicProcess anthropicInit events).1 ∧
    (anthropicRun events .genericError).2 =
      (anthropicProcess anthropicInit events).2 ++
        [.indicatorUpdate "AI_STATE_ERROR"] := by
  rcases hl : llamaProcess llamaInit chunks with ⟨ls, las⟩
  rcases ha : anthropicProcess anthropicInit events with ⟨sa, aas⟩
  refine ⟨?_, ?_, ?_, ?_, by simp [anthropicRun, ha, anthropicFinish],
    by simp [anthropicRun, ha, anthropicFinish]⟩ <;>
    simp only [llamaRun, hl, llamaFinish]
  · split <;> simp [MessageState.applyUpdate]
  · intro hms
    simp [hms, MessageState.applyUpdate]
  · intro hms
    simp [hms, MessageState.applyUpdate]
  · split <;> simp

set_option maxRecDepth 8000 in
/-- From the invariant, at completion the conclusion of C6 follows,
checked exhaustively over the finite state space. -/
theorem regInv_final (c : Option (Fin 2)) (p : Bool) (pc0 : Fin 5)
    (cr0 d0 : Bool) (pc1 : Fin 5) (cr1 d1 : Bool)
    (hinv : regInv ⟨c, p, ⟨pc0, cr0, d0⟩, ⟨pc1, cr1, d1⟩⟩ = true)
    (h0 : pc0 = 4) (h1 : pc1 = 4) :
    ∃ r : Fin 2, c = some r ∧
      ((RegState.mk c p ⟨pc0, cr0, d0⟩ ⟨pc1, cr1, d1⟩).reqOf r).created = true ∧
      ((RegState.mk c p ⟨pc0, cr0, d0⟩ ⟨pc1, cr1, d1⟩).reqOf r).disposed = false ∧
      ∀ r' : Fin 2, r' ≠ r →
        ((RegState.mk c p ⟨pc0, cr0, d0⟩ ⟨pc1, cr1, d1⟩).reqOf r').created = true →
        ((RegState.mk c p ⟨pc0, cr0, d0⟩ ⟨pc1, cr1, d1⟩).reqOf r').disposed = true := by
  revert hinv h0 h1
  revert c p pc0 cr0 d0 pc1 cr1 d1
  decide

/-- C6: under every interleaving of two start requests for the same
conversation key, once both requests have completed exactly one of the
created Router/Agent instances is installed in the registry and any
other created instance was disposed instead of installed. -/
theorem start_registry_single_instance (sched : List (Fin 2))
    (h0 : (regRun sched regInit).req0.pc = 4)
    (h1 : (regRun sched regInit).req1.pc = 4) :
    ∃ r : Fin 2, (regRun sched regInit).cache = some r ∧
      ((regRun sched regInit).reqOf r).created = true ∧
      ((regRun sched regInit).reqOf r).disposed = false ∧
      ∀ r' : Fin 2, r' ≠ r →
        ((regRun sched regInit).reqOf r').created = true →
        ((regRun sched regInit).reqOf r').disposed = true := by
  have hinv := regInv_run sched
  revert hinv h0 h1
  generalize regRun sched regInit = s
  obtain ⟨c, p, ⟨pc0, cr0, d0⟩, ⟨pc1, cr1, d1⟩⟩ := s
  intro h0 h1 hinv
  exact regInv_final c p pc0 cr0 d0 pc1 cr1 d1 hinv h0 h1

/-- C6 witness: a concrete interleaving in which the second request hits
the pending-set guard while the first is mid-flight; both complete and
exactly the first request's instance is installed. -/
theorem start_registry_single_instance_witness :
    (regRun [0, 0, 1, 1, 0, 0] regInit).req0.pc = 4 ∧
    (regRun [0, 0, 1, 1, 0, 0] regInit).req1.pc = 4 ∧
    ∃ r : Fin 2, (regRun [0, 0, 1, 1, 0, 0] regInit).cache = some r ∧
      ((regRun [0, 0, 1, 1, 0, 0] regInit).reqOf r).created = true ∧
      ((regRun [0, 0, 1, 1, 0, 0] regInit).reqOf r).disposed = false ∧
      ∀ r' : Fin 2, r' ≠ r →
        ((regRun [0, 0, 1, 1, 0, 0] regInit).reqOf r').created = true →
        ((regRun [0, 0, 1, 1, 0, 0] regInit).reqOf r').disposed = true :=
  ⟨by decide, by decide,
   start_registry_single_instance [0, 0, 1, 1, 0, 0] (by decide) (by decide)⟩

/-- Every platform is in the router's map after `init` runs its
unconditional `set` calls. -/
theorem mem_multiModelPlatforms (p : AgentPlatform) :
    p ∈ multiModelPlatforms := by
  cases p <;> decide

/-- `Promise.all` rejects whenever any member rejects. -/
theorem promiseAll_error_of_mem (l : List (Except String Unit))
    (x : Except String Unit) (hx : x ∈ l) (e : String) (he : x = .error e) :
    ∃ msg, promiseAll l = .error msg := by
  induction l with
  | nil => simp at hx
  | cons h t ih =>
      rcases List.mem_cons.mp hx with h1 | h1
      · subst h1
        rw [he]
        exact ⟨e, rfl⟩
      · cases h with
        | ok u =>
            cases u
            simpa [promiseAll] using ih h1
        | error msg => exact ⟨msg, rfl⟩

/-- The example configuration for C7: the anthropic agent's `init` throws
(missing credential), the other two resolve. -/
def anthropicInitFails : AgentPlatform → Except String Unit :=
  fun p => if p = .anthropic then .error "Anthropic API key is required"
           else .ok ()

/-- C7 counterexample: when the anthropic agent's `init` rejects,
`MultiModelAgent.init` itself rejects (via `Promise.all`) instead of
succeeding, and the failed provider is still in the router's map — the
failure is fatal to the router as a whole, not tolerated per provider. -/
theorem router_init_not_partial_counterexample :
    (multiModelInit anthropicInitFails).2 =
      .error "Anthropic API key is required" ∧
    AgentPlatform.anthropic ∈ (multiModelInit anthropicInitFails).1 := by
  exact ⟨rfl, by decide⟩

/-- C7 amended: `MultiModelAgent.init` inserts every provider into the
map before initialization; if any provider's `init` rejects, the awaited
`Promise.all` rejects, so the router's `init` fails as a whole and the
failing provider remains in the map. -/
theorem router_init_all_or_nothing
    (initResult : AgentPlatform → Except String Unit)
    (p : AgentPlatform) (err : String) (h : initResult p = .error err) :
    (multiModelInit initResult).1 = multiModelPlatforms ∧
    p ∈ (multiModelInit initResult).1 ∧
    ∃ msg, (multiModelInit initResult).2 = .error msg := by
  refine ⟨rfl, mem_multiModelPlatforms p, ?_⟩
  exact promiseAll_error_of_mem _ (initResult p)
    (List.mem_map_of_mem initResult (mem_multiModelPlatforms p)) err h

/-- C7 witness: the amended theorem at the failing-anthropic
configuration. -/
theorem router_init_all_or_nothing_witness :
    (multiModelInit anthropicInitFails).1 = multiModelPlatforms ∧
    AgentPlatform.anthropic ∈ (multiModelInit anthropicInitFails).1 ∧
    ∃ msg, (multiModelInit anthropicInitFails).2 = .error msg :=
  router_init_all_or_nothing anthropicInitFails .anthropic
    "Anthropic API key is required" rfl

/-! ### C10 helper lemmas -/

/-- `splitOnColon` always yields at least one part. -/
theorem splitOnColon_ne_nil (l : List Char) : splitOnColon l ≠ [] := by
  cases l with
  | nil => simp [splitOnColon]
  | cons c rest =>
      simp only [splitOnColon]
      by_cases hc : c = ':' <;> simp [hc]

/-- No part produced by `splitOnColon` contains a colon. -/
theorem splitOnColon_no_colon (l : List Char) :
    ∀ part ∈ splitOnColon l, ':' ∉ part := by
  induction l with
  | nil =>
      intro part hp
      simp [splitOnColon] at hp
      simp [hp]
  | cons c rest ih =>
      intro part hp
      simp only [splitOnColon] at hp
      by_cases hc : c = ':'
      · rw [if_pos hc] at hp
        rcases List.mem_cons.mp hp with h1 | h1
        · simp [h1]
        · exact ih part h1
      · rw [if_neg hc] at hp
        rcases List.mem_cons.mp hp with h1 | h1
        · subst h1
          intro hmem
          rcases List.mem_cons.mp hmem with h2 | h2
          · exact hc h2.symm
          · cases hsp : splitOnColon rest with
            | nil => exact splitOnColon_ne_nil rest hsp
            | cons hd tl =>
                rw [hsp] at h2
                simp only [List.headD_cons] at h2
                exact ih hd (hsp ▸ List.mem_cons_self hd tl) h2
        · refine ih part ?_
          cases hsp : splitOnColon rest with
          | nil => exact absurd hsp (splitOnColon_ne_nil rest)
          | cons hd tl =>
              rw [hsp] at h1
              exact hsp ▸ List.mem_cons_of_mem hd h1

/-- A colon in the input forces `split(':')` to yield more than one part. -/
theorem two_le_splitOnColon_length (l : List Char) (h : ':' ∈ l) :
    2 ≤ (splitOnColon l).length := by
  induction l with
  | nil => simp at h
  | cons c rest ih =>
      simp only [splitOnColon]
      by_cases hc : c = ':'
      · rw [if_pos hc]
        have hlen : 0 < (splitOnColon rest).length :=
          List.length_pos.mpr (splitOnColon_ne_nil rest)
        simp only [List.length_cons]
        omega
      · have hmem : ':' ∈ rest := by
          rcases List.mem_cons.mp h with h1 | h1
          · exact absurd h1.symm hc
          · exact h1
        have hlen := ih hmem
        rw [if_neg hc]
        have htail : (splitOnColon rest).tail.length =
            (splitOnColon rest).length - 1 := List.length_tail _
        simp only [List.length_cons]
        omega

/-- When the channel id contains a colon, the start key contains none:
it is built from `parts[1]`, a colon-free segment. -/
theorem colon_not_mem_startUserId (cid : List Char) (h : ':' ∈ cid) :
    ':' ∉ startUserId cid := by
  intro hmem
  unfold startUserId at hmem
  rcases List.mem_append.mp hmem with hm | hm
  · exact (by decide : ':' ∉ "ai-bot-".data) hm
  · have hm' : ':' ∈ startChannelIdUpdated cid := List.mem_of_mem_filter hm
    unfold startChannelIdUpdated at hm'
    rw [if_pos h] at hm'
    have hlen := two_le_splitOnColon_length cid h
    rw [if_pos (by omega)] at hm'
    have h1 : (1 : Nat) < (splitOnColon cid).length := by omega
    rw [List.getD_eq_getElem _ _ h1] at hm'
    exact splitOnColon_no_colon cid _ (List.getElem_mem _) hm'

/-- The control key (stop/switch/active-model) keeps the whole channel
id, so it keeps the colon (stripping only `'!'`). -/
theorem colon_mem_controlUserId (cid : List Char) (h : ':' ∈ cid) :
    ':' ∈ controlUserId cid := by
  unfold controlUserId stripBang
  exact List.mem_append.mpr (Or.inr (List.mem_filter.mpr ⟨h, by decide⟩))

/-- C10: for every channel id containing `':'`, the start endpoint and
the stop/switch/active-model endpoints derive different registry keys,
so a stop issued with the same channel id as a successful start misses
the installed entry and leaves it in the registry. -/
theorem start_stop_key_mismatch (cid : List Char) (h : ':' ∈ cid) :
    startUserId cid ≠ controlUserId cid ∧
    stopFromRegistry (registryAfterStart cid) cid = [startUserId cid] ∧
    startUserId cid ∈ stopFromRegistry (registryAfterStart cid) cid := by
  have hne : startUserId cid ≠ controlUserId cid := fun he =>
    colon_not_mem_startUserId cid h (he ▸ colon_mem_controlUserId cid h)
  have hreg : stopFromRegistry (registryAfterStart cid) cid =
      [startUserId cid] := by
    unfold stopFromRegistry registryAfterStart
    rw [if_neg]
    intro hm
    exact hne (List.mem_singleton.mp hm).symm
  exact ⟨hne, hreg, hreg ▸ List.mem_singleton_self _⟩

/-- C10 witness: the default `messaging:general` channel id. -/
theorem start_stop_key_mismatch_witness :
    (':' ∈ "messaging:general".data) ∧
    (startUserId "messaging:general".data ≠
       controlUserId "messaging:general".data ∧
     stopFromRegistry (registryAfterStart "messaging:general".data)
         "messaging:general".data =
       [startUserId "messaging:general".data] ∧
     startUserId "messaging:general".data ∈
       stopFromRegistry (registryAfterStart "messaging:general".data)
         "messaging:general".data) :=
  ⟨by decide, start_stop_key_mismatch "messaging:general".data (by decide)⟩

/-! ### C8: context window -/

/-- For refutation only, following the claim's words: the context would
be the most recent 5 conversation messages having non-empty text. -/
def claimContextWindow (channelMessages : List ChannelMessage) :
    List ContextEntry :=
  (lastN 5 (channelMessages.filter hasNonEmptyText)).map fun m =>
    { role := if isBotAuthor m.userId then "assistant" else "user",
      content := m.text.getD "" }

/-- Seven channel messages, six with non-empty text, the empty one
inside the last-5 window. -/
def c8Messages : List ChannelMessage :=
  [⟨some "a", some "user-1"⟩, ⟨some "b", some "user-1"⟩,
   ⟨some "c", some "user-1"⟩, ⟨some "d", some "user-1"⟩,
   ⟨some "e", some "user-1"⟩, ⟨some "", some "user-1"⟩,
   ⟨some "f", some "user-1"⟩]

/-- C8 counterexample: the code slices the last 5 messages first and
filters afterwards, so with six non-empty messages available the built
context has only 4 entries — not the most recent 5 messages with
non-empty text. -/
theorem context_window_counterexample :
    llamaContextWindow c8Messages ≠ claimContextWindow c8Messages ∧
    (llamaContextWindow c8Messages).length = 4 ∧
    (c8Messages.filter hasNonEmptyText).length = 6 ∧
    llamaAgentHandleMessage ⟨some "http://localhost:11434", some "llama2"⟩
        ⟨some ⟨some "hi", false, none⟩⟩ c8Messages =
      .handled (llamaContextWindow c8Messages) := by decide

/-- C8 amended: an initialized agent skips exactly the events with no
message, an `ai_generated` message, or falsy text (and the router-level
forwarding guard skips the same events); every handled message gets the
context built by slicing the last 5 channel messages, then dropping
those with empty (after trim) text, tagging a message `assistant`
exactly when its author id starts with `ai-bot`, with the inbound
message appended (as `user`) exactly when it is a threaded reply. -/
theorem handle_turn_amended (ag : LlamaAgentState) (e : MessageEvent)
    (msgs : List ChannelMessage) (p : AgentPlatform) :
    (ag.apiEndpoint.isSome = true → ag.modelName.isSome = true →
      (llamaAgentHandleMessage ag e msgs = .skipped ↔
        e.message = none ∨ ∃ m, e.message = some m ∧
          (m.ai_generated = true ∨ m.text = none ∨ m.text = some ""))) ∧
    (processMessageWithAgent p e = [] ↔
      e.message = none ∨ ∃ m, e.message = some m ∧
        (m.ai_generated = true ∨ m.text = none ∨ m.text = some "")) ∧
    (∀ m t, e.message = some m → m.ai_generated = false → m.text = some t →
      t ≠ "" → processMessageWithAgent p e = [.delegateTurn p]) ∧
    (∀ m t, e.message = some m → m.ai_generated = false → m.text = some t →
      t ≠ "" → ag.apiEndpoint.isSome = true → ag.modelName.isSome = true →
      llamaAgentHandleMessage ag e msgs =
        .handled
          ((((lastN 5 msgs).filter hasNonEmptyText).map fun cm =>
              ({ role := if isBotAuthor cm.userId then "assistant" else "user",
                 content := cm.text.getD "" } : ContextEntry)) ++
            (if m.parent_id.isSome then
              [{ role := "user", content := t }] else []))) := by
  refine ⟨?_, ?_, ?_, ?_⟩
  · intro h1 h2
    rcases Option.isSome_iff_exists.mp h1 with ⟨ae, hae⟩
    rcases Option.isSome_iff_exists.mp h2 with ⟨mn, hmn⟩
    rcases e with ⟨_ | m⟩
    · simp [llamaAgentHandleMessage, hae, hmn]
    · cases hai : m.ai_generated with
      | true => simp [llamaAgentHandleMessage, hae, hmn, hai]
      | false =>
          cases htext : m.text with
          | none => simp [llamaAgentHandleMessage, hae, hmn, hai, htext]
          | some t =>
              by_cases ht : t = "" <;>
                simp [llamaAgentHandleMessage, hae, hmn, hai, htext, ht]
  · rcases e with ⟨_ | m⟩
    · simp [processMessageWithAgent]
    · cases hai : m.ai_generated with
      | true => simp [processMessageWithAgent, hai]
      | false =>
          cases htext : m.text with
          | none => simp [processMessageWithAgent, hai, htext]
          | some t =>
              by_cases ht : t = "" <;>
                simp [processMessageWithAgent, hai, htext, ht]
  · intro m t hm hai htext ht
    simp [processMessageWithAgent, hm, hai, htext, ht]
  · intro m t hm hai htext ht h1 h2
    rcases Option.isSome_iff_exists.mp h1 with ⟨ae, hae⟩
    rcases Option.isSome_iff_exists.mp h2 with ⟨mn, hmn⟩
    simp [llamaAgentHandleMessage, hm, hae, hmn, hai, htext, ht,
      llamaContextWindow]
    split <;> simp

/-- C8 witness: the amended characterization at a concrete initialized
agent, a threaded inbound message, and a one-message channel state with
a bot author. -/
theorem handle_turn_amended_witness :
    (llamaAgentHandleMessage ⟨some "http://localhost:11434", some "llama2"⟩
        ⟨some ⟨some "hi", false, some "parent"⟩⟩
        [⟨some "a", some "ai-bot-x"⟩] =
      .handled
        ((((lastN 5 [(⟨some "a", some "ai-bot-x"⟩ : ChannelMessage)]).filter
              hasNonEmptyText).map fun cm =>
            ({ role := if isBotAuthor cm.userId then "assistant" else "user",
               content := cm.text.getD "" } : ContextEntry)) ++
          (if (some "parent" : Option String).isSome then
            [{ role := "user", content := "hi" }] else []))) ∧
    processMessageWithAgent .llama ⟨some ⟨some "hi", false, some "parent"⟩⟩ =
      [.delegateTurn .llama] :=
  ⟨(handle_turn_amended ⟨some "http://localhost:11434", some "llama2"⟩
      ⟨some ⟨some "hi", false, some "parent"⟩⟩
      [⟨some "a", some "ai-bot-x"⟩] .llama).2.2.2
      ⟨some "hi", false, some "parent"⟩ "hi" rfl rfl rfl (by decide) rfl rfl,
   (handle_turn_amended ⟨some "http://localhost:11434", some "llama2"⟩
      ⟨some ⟨some "hi", false, some "parent"⟩⟩ [] .llama).2.2.1
      ⟨some "hi", false, some "parent"⟩ "hi" rfl rfl rfl (by decide)⟩

/-- C4 witness: the amended error-path behavior at concrete streams —
no accumulated text yields the apology; accumulated text `"x"` yields
the text plus the interruption notice. -/
theorem generic_error_paths_witness :
    (llamaRun [] .errored).1.msg.text = llamaErrorApology ∧
    (llamaRun ["x"] .errored).1.msg.text = "x" ++ llamaInterruptionNotice :=
  ⟨(generic_error_paths [] []).2.1 rfl,
   (generic_error_paths ["x"] []).2.2.1 (by decide)⟩
